import Mathlib

set_option maxRecDepth 400000
set_option allowUnsafeReducibility true

/- `Rat.add`, `Rat.mul`, `Rat.inv` and friends are `@[irreducible]` in the
library; restoring the default reducibility lets `decide` evaluate the
rational arithmetic of the embedded program on concrete inputs. -/
attribute [semireducible] Rat.add Rat.mul Rat.inv Rat.sub Rat.neg Rat.div

/-
  Verification development for the signal-detection core of the
  position-keeper repository.

  The repository carries two variants of the SignalGenerator class:
  * `src/unnamed/part_000` — the fuller variant: a `SignalConfig` record with
    defaults, `generateSignal` with a try/catch boundary,
    `analyzeQuadraticPattern` (vertex age = length − 1 − vertexIdx), the
    unweighted `quadraticFit`, and `applyStabilityFilter`.
  * `src/indicators/src/services/SignalGenerator.ts` — the named variant:
    env-derived config, no try/catch, vertex age = 360 − vertexIdx,
    `calculateWeights` and `weightedQuadraticFit`.

  Numbers are embedded as exact rationals (ℚ).  JavaScript `Math.round` is
  `jsRound` (floor of x + 1/2, which matches JS round-half-toward-+∞
  semantics on every rational).  `Math.sqrt` and `Math.exp` are opaque
  library floats and are abstracted as explicit function parameters where
  the code uses them.  Timestamps are raw epoch-millisecond integers; the
  locale formatting applied by `toLocalTimezone` is presentation only and
  is elided.  Thrown exceptions are modelled with `Except`: the analysis
  step an orchestrator guards is abstracted as a function returning
  `Except String PatternResult`, and the try/catch of `generateSignal`
  becomes the match on that result.
-/

inductive Direction
  | BUY
  | SELL
  | NONE
deriving DecidableEq, Repr

inductive TrendStrength
  | STRONG
  | MODERATE
  | WEAK
deriving DecidableEq, Repr

inductive PatternShape
  | U_SHAPED
  | INVERTED_U
deriving DecidableEq, Repr

/-- The `SignalConfig` interface of `part_000`. -/
structure SignalConfig where
  MIN_VERTEX_AGE : ℕ
  MAX_VERTEX_AGE : ℕ
  SIGNAL_EXPIRY_MINUTES : ℤ
  MIN_MAGNITUDE : ℚ
  STABILITY_BUFFER : ℕ
  CONFIDENCE_THRESHOLD : ℚ
  WEIGHTED_ALPHA : ℚ
deriving DecidableEq, Repr

/-- `SignalGenerator.DEFAULT_CONFIG` of `part_000` (the named variant's
env-default values coincide). -/
def DEFAULT_CONFIG : SignalConfig :=
  { MIN_VERTEX_AGE := 20
    MAX_VERTEX_AGE := 120
    SIGNAL_EXPIRY_MINUTES := 15
    MIN_MAGNITUDE := 3/2
    STABILITY_BUFFER := 3
    CONFIDENCE_THRESHOLD := 3/5
    WEIGHTED_ALPHA := 1/2 }

/-- JavaScript `Math.round`: round half toward positive infinity. -/
def jsRound (q : ℚ) : ℤ := ⌊q + 1/2⌋

/-- `Math.round(q * 100) / 100`, the two-decimal rounding used by
`createSignal` and by `analyzeQuadraticPattern`. -/
def round2 (q : ℚ) : ℚ := (jsRound (q * 100) : ℚ) / 100

/-- `q.toFixed(2)` on a rational: ECMAScript toFixed picks the closest
scaled integer, ties toward the larger, which is `jsRound` of `q * 100`. -/
def toFixed2 (q : ℚ) : String :=
  let c : ℤ := jsRound (q * 100)
  let s : String := if c < 0 then "-" else ""
  let n : ℕ := c.natAbs
  s ++ (toString (n / 100) ++ ("." ++ ((if n % 100 < 10 then "0" else "") ++ toString (n % 100))))

/-- `formatPercentage` of both variants. -/
def formatPercentage (pct : ℚ) : String :=
  (if 0 ≤ pct then "+" else "") ++ (toFixed2 pct ++ "%")

/-- `PatternResult` of `part_000`.  The optional fields are `Option`s. -/
structure PatternResult where
  direction : Direction
  confidence : ℚ
  reason : String
  vertexAge : Option ℕ
  trendStrength : Option TrendStrength
  pattern : Option PatternShape
  magnitude : Option ℚ
  expiresAt : ℤ
deriving DecidableEq, Repr

/-- `TrendSignal` of `types/shared.ts`; timestamps kept as raw integers. -/
structure TrendSignal where
  direction : Direction
  confidence : ℚ
  firstDetected : ℤ
  lastEvaluated : ℤ
  expiresAt : ℤ
  reason : String
  vertexAge : Option ℕ
  trendStrength : Option TrendStrength
  stable : Option Bool
  pattern : Option PatternShape
  magnitude : Option ℚ
deriving DecidableEq, Repr

/- ------------------------------------------------------------------
   Matrix helpers shared verbatim by both variants.
   ------------------------------------------------------------------ -/

/-- `transpose`: `A[0].map((_, i) => A.map(row => row[i]))`. -/
def transpose (A : List (List ℚ)) : List (List ℚ) :=
  (List.range (A.headD []).length).map (fun i => A.map (fun row => row.getD i 0))

/-- `multiply`: entry (i, j) is `Σ_k A[i][k] * B[k][j]`. -/
def multiply (A B : List (List ℚ)) : List (List ℚ) :=
  A.map (fun row =>
    (List.range (B.headD []).length).map
      (fun j => (row.enum.map (fun p => p.2 * ((B.getD p.1 []).getD j 0))).sum))

/-- `multiplyVec`: entry i is `Σ_k A[i][k] * v[k]`. -/
def multiplyVec (A : List (List ℚ)) (v : List ℚ) : List ℚ :=
  A.map (fun row => (row.enum.map (fun p => p.2 * v.getD p.1 0)).sum)

/-- `solveLinearSystem`: Gaussian elimination with partial pivoting and
back substitution over the augmented matrix, as written in both variants. -/
def solveLinearSystem (A : List (List ℚ)) (b : List ℚ) : List ℚ := Id.run do
  let m := A.length
  let mut M : Array (Array ℚ) :=
    ((List.zipWith (fun row bi => (Array.mk row).push bi) A b)).toArray
  for i in [0:m] do
    let mut maxRow := i
    for k in [i+1:m] do
      if |((M.get! k).get! i)| > |((M.get! maxRow).get! i)| then
        maxRow := k
    let tmp := M.get! i
    M := M.set! i (M.get! maxRow)
    M := M.set! maxRow tmp
    for k in [i+1:m] do
      let factor := ((M.get! k).get! i) / ((M.get! i).get! i)
      for j in [i:m+1] do
        M := M.set! k ((M.get! k).set! j (((M.get! k).get! j) - factor * ((M.get! i).get! j)))
  let mut x : Array ℚ := Array.mkArray m 0
  for i' in [0:m] do
    let i := m - 1 - i'
    x := x.set! i (((M.get! i).get! m) / ((M.get! i).get! i))
    for k' in [0:i] do
      let k := i - 1 - k'
      M := M.set! k ((M.get! k).set! m (((M.get! k).get! m) - ((M.get! k).get! i) * (x.get! i)))
  return x.toList

/-- `quadraticFit` of `part_000`: unweighted least squares on the design
matrix with rows `[x², x, 1]`, solved through the normal equations. -/
def quadraticFit (x y : List ℚ) : List ℚ :=
  let X := x.map (fun xi => [xi * xi, xi, 1])
  let XT := transpose X
  solveLinearSystem (multiply XT X) (multiplyVec XT y)

/-- `calculateWeights` of the named variant.  `expFn` abstracts
`Math.exp`; the uniform branch returns all ones. -/
def calculateWeights (weightedPolynomial : Bool) (expFn : ℚ → ℚ) (alpha : ℚ)
    (length : ℕ) : List ℚ :=
  if weightedPolynomial then
    (List.range length).map (fun i => expFn (alpha * i / length))
  else
    (List.range length).map (fun _ => 1)

/-- `weightedQuadraticFit` of the named variant.  `sqrtFn` abstracts
`Math.sqrt`; rows of the design matrix are scaled by `√wᵢ`. -/
def weightedQuadraticFit (sqrtFn : ℚ → ℚ) (x y weights : List ℚ) : List ℚ :=
  let W := weights.map sqrtFn
  let X := List.zipWith (fun xi wi => [wi * xi * xi, wi * xi, wi]) x W
  let Y := List.zipWith (fun yi wi => wi * yi) y W
  let XT := transpose X
  solveLinearSystem (multiply XT X) (multiplyVec XT Y)

/- ------------------------------------------------------------------
   Classification.
   ------------------------------------------------------------------ -/

/-- Vertex index of `part_000`: `Math.max(0, Math.min(n - 1, Math.round(-b / (2a))))`. -/
def vertexIndex (a b : ℚ) (n : ℕ) : ℕ :=
  (max 0 (min ((n : ℤ) - 1) (jsRound (-b / (2 * a))))).toNat

/-- Vertex index of the named variant: the clamp is the literal 359. -/
def vertexIndexNamed (a b : ℚ) : ℕ :=
  (max 0 (min 359 (jsRound (-b / (2 * a))))).toNat

/-- Percent change from the sample at `idx` to the last sample:
`((y[N-1] - y[idx]) / y[idx]) * 100`. -/
def pctOf (y : List ℚ) (idx : ℕ) : ℚ :=
  (y.getD (y.length - 1) 0 - y.getD idx 0) / y.getD idx 0 * 100

/-- Vertex age of `part_000`: `prices.length - 1 - vertexIdx`. -/
def ageOf (y : List ℚ) (idx : ℕ) : ℕ := y.length - 1 - idx

/-- One row of the decision table. -/
structure DecisionRow where
  direction : Direction
  confidence : ℚ
  reason : String
  trendStrength : TrendStrength
deriving DecidableEq, Repr

/-- The decision block of `analyzeQuadraticPattern` (part_000): the
let-bound `direction`/`confidence`/`reason`/`trendStrength` assignments.
`isUShaped` is `a > 0`, `isInvertedUShaped` is `a < 0`. -/
def decisionTable (cfg : SignalConfig) (a pct : ℚ) (age : ℕ) : DecisionRow :=
  if 0 < a ∧ cfg.MIN_MAGNITUDE < pct then
    { direction := Direction.BUY
      confidence := min (95/100) (1/2 + |pct| / 15)
      reason := "U-shaped recovery confirmed (" ++
        (toString age ++ ("min post-vertex, " ++ (formatPercentage pct ++ ")")))
      trendStrength :=
        if 8 < pct then TrendStrength.STRONG
        else if 5 < pct then TrendStrength.MODERATE
        else TrendStrength.WEAK }
  else if a < 0 ∧ pct < -cfg.MIN_MAGNITUDE then
    { direction := Direction.SELL
      confidence := min (95/100) (1/2 + |pct| / 20)
      reason := "∩-shaped decline confirmed (" ++
        (toString age ++ ("min post-vertex, " ++ (formatPercentage pct ++ ")")))
      trendStrength :=
        if pct < -8 then TrendStrength.STRONG
        else if pct < -5 then TrendStrength.MODERATE
        else TrendStrength.WEAK }
  else
    { direction := Direction.NONE
      confidence := 0
      reason := (if 0 < a then "U-shaped" else "∩-shaped") ++
        (" pattern present but insufficient magnitude (" ++
          (toString age ++ ("min post-vertex, " ++ (formatPercentage pct ++ ")"))))
      trendStrength := TrendStrength.WEAK }

/-- The named variant's decision block differs in one place: its SELL
guard is `!isUShaped` (that is `¬ a > 0`), not `a < 0`, and its magnitude
threshold is the literal 1.5. -/
def decisionTableNamed (a pct : ℚ) (age : ℕ) : DecisionRow :=
  if 0 < a ∧ (3/2 : ℚ) < pct then
    { direction := Direction.BUY
      confidence := min (95/100) (1/2 + |pct| / 15)
      reason := "U-shaped recovery confirmed (" ++
        (toString age ++ ("min post-vertex, " ++ (formatPercentage pct ++ ")")))
      trendStrength :=
        if 8 < pct then TrendStrength.STRONG
        else if 5 < pct then TrendStrength.MODERATE
        else TrendStrength.WEAK }
  else if ¬ 0 < a ∧ pct < -(3/2 : ℚ) then
    { direction := Direction.SELL
      confidence := min (95/100) (1/2 + |pct| / 20)
      reason := "∩-shaped decline confirmed (" ++
        (toString age ++ ("min post-vertex, " ++ (formatPercentage pct ++ ")")))
      trendStrength :=
        if pct < -8 then TrendStrength.STRONG
        else if pct < -5 then TrendStrength.MODERATE
        else TrendStrength.WEAK }
  else
    { direction := Direction.NONE
      confidence := 0
      reason := (if 0 < a then "U-shaped" else "∩-shaped") ++
        (" pattern present but insufficient magnitude (" ++
          (toString age ++ ("min post-vertex, " ++ (formatPercentage pct ++ ")"))))
      trendStrength := TrendStrength.WEAK }

/-- Lines 77-147 of `part_000`'s `analyzeQuadraticPattern`: everything
after the fit, taking the fitted `a` and `b` as arguments. -/
def classifyFit (cfg : SignalConfig) (a b : ℚ) (y : List ℚ) (timestamp : ℤ) :
    PatternResult :=
  let vertexIdx := vertexIndex a b y.length
  let minutesSinceVertex := ageOf y vertexIdx
  let pct := pctOf y vertexIdx
  let expiry := timestamp + cfg.SIGNAL_EXPIRY_MINUTES * 60 * 1000
  if minutesSinceVertex < cfg.MIN_VERTEX_AGE then
    { direction := Direction.NONE
      confidence := 1/10
      reason := "Vertex too recent (" ++
        (toString minutesSinceVertex ++ ("min < " ++ (toString cfg.MIN_VERTEX_AGE ++ "min)")))
      vertexAge := none
      trendStrength := none
      pattern := none
      magnitude := none
      expiresAt := expiry }
  else
    let d := decisionTable cfg a pct minutesSinceVertex
    if d.direction = Direction.BUY ∧ cfg.MAX_VERTEX_AGE < minutesSinceVertex then
      { direction := Direction.NONE
        confidence := 0
        reason := "Pattern too aged for BUY" ++ (" (>" ++ (toString cfg.MAX_VERTEX_AGE ++ "min)"))
        vertexAge := none
        trendStrength := none
        pattern := none
        magnitude := none
        expiresAt := expiry }
    else
      { direction := d.direction
        confidence := round2 d.confidence
        reason := d.reason
        vertexAge := some minutesSinceVertex
        trendStrength := some d.trendStrength
        pattern := some (if 0 < a then PatternShape.U_SHAPED else PatternShape.INVERTED_U)
        magnitude := some |pct|
        expiresAt := expiry }

/-- `analyzeQuadraticPattern` of `part_000`: fit the last-360 window, then
classify.  The destructuring `[a, b, c]` reads the first two coefficients. -/
def analyzeQuadraticPattern (cfg : SignalConfig) (prices : List ℚ) (timestamp : ℤ) :
    PatternResult :=
  let y := prices
  let x := (List.range y.length).map (fun (i : ℕ) => (i : ℚ))
  let coeffs := quadraticFit x y
  classifyFit cfg (coeffs.getD 0 0) (coeffs.getD 1 0) y timestamp

/-- `createSignal` of both variants: rounds the confidence to two decimals
and stamps the record; metadata fields are passed through. -/
def createSignal (cfg : SignalConfig) (direction : Direction) (confidence : ℚ)
    (reason : String) (timestamp : ℤ) (vertexAge : Option ℕ)
    (trendStrength : Option TrendStrength) (pattern : Option PatternShape)
    (magnitude : Option ℚ) : TrendSignal :=
  { direction := direction
    confidence := round2 confidence
    firstDetected := timestamp
    lastEvaluated := timestamp
    expiresAt := timestamp + cfg.SIGNAL_EXPIRY_MINUTES * 60 * 1000
    reason := reason
    vertexAge := vertexAge
    trendStrength := trendStrength
    stable := none
    pattern := pattern
    magnitude := magnitude }

/-- The classification stage of the named variant (`generateSignal` lines
30-81): vertex clamped with the literal 359, age computed as
`360 - vertexIdx`, early returns without metadata, final record built by
`createSignal` with metadata. -/
def classifyNamed (cfg : SignalConfig) (a b : ℚ) (y : List ℚ) (ts : ℤ) :
    TrendSignal :=
  let vertexIdx := vertexIndexNamed a b
  let minutesSinceVertex := 360 - vertexIdx
  let pct := pctOf y vertexIdx
  if minutesSinceVertex < cfg.MIN_VERTEX_AGE then
    createSignal cfg Direction.NONE (1/10)
      ("Vertex too recent (" ++
        (toString minutesSinceVertex ++ ("min < " ++ (toString cfg.MIN_VERTEX_AGE ++ "min)"))))
      ts none none none none
  else
    let d := decisionTableNamed a pct minutesSinceVertex
    if d.direction = Direction.BUY ∧ cfg.MAX_VERTEX_AGE < minutesSinceVertex then
      createSignal cfg Direction.NONE 0
        ("Pattern too aged for BUY" ++ (" (>" ++ (toString cfg.MAX_VERTEX_AGE ++ "min)")))
        ts none none none none
    else
      createSignal cfg d.direction d.confidence d.reason ts
        (some minutesSinceVertex) (some d.trendStrength)
        (some (if 0 < a then PatternShape.U_SHAPED else PatternShape.INVERTED_U))
        (some |pct|)

/- ------------------------------------------------------------------
   Stability filter and orchestration.
   ------------------------------------------------------------------ -/

/-- JavaScript `slice(-n)`: the last `n` elements, the whole list when
`n = 0` (since `slice(-0)` is `slice(0)`) or when `n` exceeds the length. -/
def jsSliceLast (l : List TrendSignal) (n : ℕ) : List TrendSignal :=
  if n = 0 then l else l.drop (l.length - n)

/-- `applyStabilityFilter`: append the fresh record, truncate to the last
`2 × STABILITY_BUFFER` entries, and require the last `STABILITY_BUFFER`
entries to agree with the fresh non-NONE direction for a stable record;
otherwise emit the fresh record at 0.8 confidence.  Returns the emitted
record together with the new history. -/
def applyStabilityFilter (cfg : SignalConfig) (history : List TrendSignal)
    (newSignal : TrendSignal) : TrendSignal × List TrendSignal :=
  let h1 := history ++ [newSignal]
  let h2 := if cfg.STABILITY_BUFFER * 2 < h1.length then
      h1.drop (h1.length - cfg.STABILITY_BUFFER * 2) else h1
  let recentSignals := jsSliceLast h2 cfg.STABILITY_BUFFER
  let avgConfidence := (recentSignals.map (fun s => s.confidence)).sum / (recentSignals.length : ℚ)
  if cfg.STABILITY_BUFFER ≤ h2.length ∧
      (∀ s ∈ recentSignals, s.direction = newSignal.direction) ∧
      newSignal.direction ≠ Direction.NONE then
    ({ newSignal with
        confidence := avgConfidence
        reason := newSignal.reason ++ (" (" ++ (toString cfg.STABILITY_BUFFER ++ "x confirmed)"))
        stable := some true }, h2)
  else
    ({ newSignal with
        confidence := newSignal.confidence * (8/10)
        reason := newSignal.reason ++ " (awaiting confirmation)"
        stable := some false }, h2)

/-- `applyStabilityFilter` of `part_000`: builds the base record from the
`PatternResult` through `createSignal`, then runs the filter logic. -/
def applyStabilityFilterPR (cfg : SignalConfig) (history : List TrendSignal)
    (pr : PatternResult) (ts : ℤ) : TrendSignal × List TrendSignal :=
  applyStabilityFilter cfg history
    (createSignal cfg pr.direction pr.confidence pr.reason ts
      pr.vertexAge pr.trendStrength pr.pattern pr.magnitude)

/-- The per-symbol history map, lazily defaulting to the empty history. -/
def SignalState : Type := String → List TrendSignal

def emptyState : SignalState := fun _ => []

/-- `generateSignal` of `part_000` with the analysis step abstracted: the
insufficient-data gate, then the try/catch around fit-and-classify
rendered as a match on `Except`.  An `error` is converted at this
boundary into a NONE record carrying the fault description, and the
history is left untouched (the throw happens before the filter runs). -/
def generateSignalWith (cfg : SignalConfig)
    (analyze : List ℚ → ℤ → Except String PatternResult)
    (st : SignalState) (symbol : String) (prices : List ℚ) (lastUpdated : ℤ) :
    TrendSignal × SignalState :=
  if prices.length < 360 then
    (createSignal cfg Direction.NONE 0
      ("Insufficient data (" ++ ((toString prices.length ++ "/360") ++ " points)"))
      lastUpdated none none none none, st)
  else
    match analyze (prices.drop (prices.length - 360)) lastUpdated with
    | Except.ok patternResult =>
        let r := applyStabilityFilterPR cfg (st symbol) patternResult lastUpdated
        (r.1, fun s => if s = symbol then r.2 else st s)
    | Except.error msg =>
        (createSignal cfg Direction.NONE 0 ("Analysis error: " ++ msg)
          lastUpdated none none none none, st)

/-- `generateSignal` of `part_000`: the concrete pipeline, whose analysis
step (pure rational arithmetic in this embedding) always succeeds. -/
def generateSignal (cfg : SignalConfig) (st : SignalState) (symbol : String)
    (prices : List ℚ) (lastUpdated : ℤ) : TrendSignal × SignalState :=
  generateSignalWith cfg
    (fun y ts => Except.ok (analyzeQuadraticPattern cfg y ts))
    st symbol prices lastUpdated

/- ------------------------------------------------------------------
   Concrete price windows used by witnesses and counterexamples.
   ------------------------------------------------------------------ -/

/-- 360 samples, all equal to 1. -/
def yFlat : List ℚ := (List.range 360).map (fun _ => 1)

/-- 360 samples at 1 with a final sample of 1.06: a six percent rise from
any interior vertex to the last sample. -/
def ySix : List ℚ := (List.range 360).map (fun i => if i = 359 then 53/50 else 1)

/-- 360 samples at 1 with a final sample of 1.1: a ten percent rise. -/
def yTen : List ℚ := (List.range 360).map (fun i => if i = 359 then 11/10 else 1)

/-- 360 samples at 1 with a final sample of 0.9: a ten percent decline. -/
def yDown : List ℚ := (List.range 360).map (fun i => if i = 359 then 9/10 else 1)

/-- The index list `y.map((_, i) => i)` for a 360-sample window. -/
def xWin : List ℚ := (List.range 360).map (fun (i : ℕ) => (i : ℚ))

/-- An exactly quadratic window `(i - 259)² + 625000`: its least-squares
fit is exact, the vertex sits at index 259 (age 100), and the rise from
vertex to end is 10000/625000 = 1.6 percent. -/
def yParab : List ℚ := (List.range 360).map (fun (i : ℕ) => ((i : ℚ) - 259)^2 + 625000)

/-- A 100-sample window: too short for evaluation. -/
def yShort : List ℚ := List.replicate 100 1

/-- An analysis step that always fails, standing for a thrown numeric
fault (for example an unsolvable normal-equations system). -/
def failingAnalyze : List ℚ → ℤ → Except String PatternResult :=
  fun _ _ => Except.error "singular normal equations"

/-- A fresh BUY classification with confidence 0.9. -/
def prBUYa : PatternResult :=
  { direction := Direction.BUY, confidence := 9/10, reason := "fresh buy a"
    vertexAge := some 59, trendStrength := some TrendStrength.MODERATE
    pattern := some PatternShape.U_SHAPED, magnitude := some 6, expiresAt := 900000 }

/-- A fresh BUY classification with confidence 0.85. -/
def prBUYb : PatternResult :=
  { direction := Direction.BUY, confidence := 17/20, reason := "fresh buy b"
    vertexAge := some 60, trendStrength := some TrendStrength.MODERATE
    pattern := some PatternShape.U_SHAPED, magnitude := some 6, expiresAt := 900000 }

/-- A fresh BUY classification with confidence 0.8. -/
def prBUYc : PatternResult :=
  { direction := Direction.BUY, confidence := 4/5, reason := "fresh buy c"
    vertexAge := some 61, trendStrength := some TrendStrength.MODERATE
    pattern := some PatternShape.U_SHAPED, magnitude := some 6, expiresAt := 900000 }

/-- A fresh SELL classification with confidence 0.8. -/
def prSELL : PatternResult :=
  { direction := Direction.SELL, confidence := 4/5, reason := "fresh sell"
    vertexAge := some 60, trendStrength := some TrendStrength.MODERATE
    pattern := some PatternShape.INVERTED_U, magnitude := some 6, expiresAt := 900000 }

/- ------------------------------------------------------------------
   Integer mirrors of the matrix pipeline.

   The least-squares normal equations of the 360-sample window involve
   twelve-digit sums; they are evaluated here over ℤ (where kernel
   reduction is cheap) and transported to the ℚ definitions through the
   cast lemmas proved below.
   ------------------------------------------------------------------ -/

/-- Entry-wise cast of an integer row to ℚ. -/
def castRow (r : List ℤ) : List ℚ := r.map Int.cast

/-- Entry-wise cast of an integer matrix to ℚ. -/
def castMat (A : List (List ℤ)) : List (List ℚ) := A.map castRow

/-- `transpose` re-expressed over ℤ. -/
def transposeZ (A : List (List ℤ)) : List (List ℤ) :=
  (List.range (A.headD []).length).map (fun i => A.map (fun row => row.getD i 0))

/-- `multiply` re-expressed over ℤ. -/
def multiplyZ (A B : List (List ℤ)) : List (List ℤ) :=
  A.map (fun row =>
    (List.range (B.headD []).length).map
      (fun j => (row.enum.map (fun p => p.2 * ((B.getD p.1 []).getD j 0))).sum))

/-- `multiplyVec` re-expressed over ℤ. -/
def multiplyVecZ (A : List (List ℤ)) (v : List ℤ) : List ℤ :=
  A.map (fun row => (row.enum.map (fun p => p.2 * v.getD p.1 0)).sum)

/-- The integer design matrix of the 360-sample window: rows `[i², i, 1]`. -/
def XdZ : List (List ℤ) :=
  ((List.range 360).map (fun (i : ℕ) => (i : ℤ))).map (fun z => [z * z, z, 1])

/-- `yParab` over ℤ. -/
def yParabZ : List ℤ := (List.range 360).map (fun (i : ℕ) => ((i : ℤ) - 259)^2 + 625000)

/-- The normal-equation matrix `XᵀX` of the 360-sample window, over ℚ. -/
def XTXq : List (List ℚ) :=
  [[1200940991988, 4175744400, 15487260],
   [4175744400, 15487260, 64620],
   [15487260, 64620, 360]]

/-- The right-hand side `XᵀyParab`, over ℚ. -/
def XTYq : List ℚ := [9756343780848, 40875617940, 231163260]

/- ------------------------------------------------------------------
   Helper lemmas on the rounding functions.
   ------------------------------------------------------------------ -/

theorem jsRound_intCast (z : ℤ) : jsRound (z : ℚ) = z := by
  unfold jsRound
  rw [add_comm, Int.floor_add_int]
  have h0 : ⌊(1/2 : ℚ)⌋ = 0 := by
    rw [Int.floor_eq_zero_iff]
    constructor <;> norm_num
  omega

theorem round2_intCast_div (k : ℤ) : round2 ((k : ℚ) / 100) = (k : ℚ) / 100 := by
  unfold round2
  rw [div_mul_cancel₀ _ (by norm_num : (100 : ℚ) ≠ 0), jsRound_intCast]

theorem round2_zero : round2 0 = 0 := by
  have h := round2_intCast_div 0
  norm_num at h
  exact h

theorem round2_one : round2 1 = 1 := by
  have h := round2_intCast_div 100
  norm_num at h
  exact h

theorem round2_mono {q r : ℚ} (h : q ≤ r) : round2 q ≤ round2 r := by
  unfold round2
  have h1 : jsRound (q * 100) ≤ jsRound (r * 100) :=
    Int.floor_le_floor (by nlinarith)
  have h2 : ((jsRound (q * 100) : ℤ) : ℚ) ≤ ((jsRound (r * 100) : ℤ) : ℚ) :=
    Int.cast_le.mpr h1
  exact div_le_div_of_nonneg_right h2 (by norm_num) |>.trans_eq rfl

theorem round2_nonneg {q : ℚ} (h : 0 ≤ q) : 0 ≤ round2 q := by
  have := round2_mono h
  rwa [round2_zero] at this

theorem round2_le_one {q : ℚ} (h : q ≤ 1) : round2 q ≤ 1 := by
  have := round2_mono h
  rwa [round2_one] at this

/- ------------------------------------------------------------------
   Claims.
   ------------------------------------------------------------------ -/

/-- C5: a call to `generateSignal` with fewer than 360 prices returns a
record with direction NONE, confidence 0 and a reason containing
"n/360", and leaves the whole history state unchanged: nothing is
appended and no history is created for the symbol. -/
theorem C5_insufficient_data_no_history (cfg : SignalConfig) (st : SignalState)
    (symbol : String) (prices : List ℚ) (now : ℤ) (h : prices.length < 360) :
    (generateSignal cfg st symbol prices now).2 = st ∧
    (generateSignal cfg st symbol prices now).1.direction = Direction.NONE ∧
    (generateSignal cfg st symbol prices now).1.confidence = 0 ∧
    ∃ p q, (generateSignal cfg st symbol prices now).1.reason =
      p ++ ((toString prices.length ++ "/360") ++ q) := by
  unfold generateSignal generateSignalWith
  rw [if_pos h]
  refine ⟨rfl, rfl, ?_, ⟨"Insufficient data (", " points)", rfl⟩⟩
  simp [createSignal, round2_zero]

/-- Witness for C5: a 100-point window yields NONE, confidence 0, a
reason containing "100/360", and an unchanged state. -/
theorem C5_witness :
    (generateSignal DEFAULT_CONFIG emptyState "TOK" yShort 0).2 = emptyState ∧
    (generateSignal DEFAULT_CONFIG emptyState "TOK" yShort 0).1.direction = Direction.NONE ∧
    (generateSignal DEFAULT_CONFIG emptyState "TOK" yShort 0).1.confidence = 0 ∧
    ∃ p q, (generateSignal DEFAULT_CONFIG emptyState "TOK" yShort 0).1.reason =
      p ++ ((toString yShort.length ++ "/360") ++ q) :=
  C5_insufficient_data_no_history DEFAULT_CONFIG emptyState "TOK" yShort 0 (by decide)

/-- C8: when the guarded analysis step fails (the `Except.error` case,
standing for any exception thrown inside fit/classify), `generateSignal`
converts the fault at its boundary into a NONE record with confidence 0
whose reason carries the fault description, leaves the history untouched,
and — being a total function into `TrendSignal × SignalState` — never
propagates the fault to the caller. -/
theorem C8_numeric_fault_contained (cfg : SignalConfig)
    (analyze : List ℚ → ℤ → Except String PatternResult) (st : SignalState)
    (symbol : String) (prices : List ℚ) (now : ℤ) (msg : String)
    (hlen : ¬ prices.length < 360)
    (herr : analyze (prices.drop (prices.length - 360)) now = Except.error msg) :
    (generateSignalWith cfg analyze st symbol prices now).1.direction = Direction.NONE ∧
    (generateSignalWith cfg analyze st symbol prices now).1.confidence = 0 ∧
    (generateSignalWith cfg analyze st symbol prices now).1.reason = "Analysis error: " ++ msg ∧
    (generateSignalWith cfg analyze st symbol prices now).2 = st := by
  unfold generateSignalWith
  rw [if_neg hlen, herr]
  exact ⟨rfl, by simp [createSignal, round2_zero], rfl, rfl⟩

/-- Witness for C8: a failing analysis step over a full window is
converted into the diagnostic NONE record and the state is unchanged. -/
theorem C8_witness :
    (generateSignalWith DEFAULT_CONFIG failingAnalyze emptyState "TOK" yFlat 0).1.direction = Direction.NONE ∧
    (generateSignalWith DEFAULT_CONFIG failingAnalyze emptyState "TOK" yFlat 0).1.confidence = 0 ∧
    (generateSignalWith DEFAULT_CONFIG failingAnalyze emptyState "TOK" yFlat 0).1.reason =
      "Analysis error: " ++ "singular normal equations" ∧
    (generateSignalWith DEFAULT_CONFIG failingAnalyze emptyState "TOK" yFlat 0).2 = emptyState :=
  C8_numeric_fault_contained DEFAULT_CONFIG failingAnalyze emptyState "TOK" yFlat 0
    "singular normal equations" (by decide) rfl

theorem zipWith_replicate_eq_map {α β γ : Type} (f : α → β → γ) (c : β) :
    ∀ (l : List α), List.zipWith f l (List.replicate l.length c) = l.map (fun a => f a c) := by
  intro l
  induction l with
  | nil => rfl
  | cons a t ih =>
      simp [List.replicate_succ, ih]

/-- C10: with uniform weighting selected, `calculateWeights` returns all
ones, and `weightedQuadraticFit` coincides exactly with the unweighted
`quadraticFit` on every pair of equal-length inputs of length at least 3:
scaling by √1 leaves the design matrix and right-hand side unchanged, so
the identical normal-equations system is solved. -/
theorem C10_uniform_weights_refinement (sqrtFn expFn : ℚ → ℚ) (alpha : ℚ)
    (hs : sqrtFn 1 = 1) (x y : List ℚ) (hlen : x.length = y.length)
    (h3 : 3 ≤ x.length) :
    weightedQuadraticFit sqrtFn x y (calculateWeights false expFn alpha x.length) =
      quadraticFit x y := by
  have hw : calculateWeights false expFn alpha x.length = List.replicate x.length (1:ℚ) := by
    unfold calculateWeights
    simp
  simp only [weightedQuadraticFit, quadraticFit]
  rw [hw]
  have hW : (List.replicate x.length (1:ℚ)).map sqrtFn = List.replicate x.length 1 := by
    rw [List.map_replicate, hs]
  rw [hW]
  have hX : List.zipWith (fun xi wi => [wi * xi * xi, wi * xi, wi]) x (List.replicate x.length (1:ℚ))
      = x.map (fun xi => [xi * xi, xi, 1]) := by
    rw [zipWith_replicate_eq_map]
    simp only [one_mul]
  have hY : List.zipWith (fun yi wi => wi * yi) y (List.replicate x.length (1:ℚ)) = y := by
    rw [hlen, zipWith_replicate_eq_map]
    simp only [one_mul, List.map_id']
  rw [hX, hY]

/-- Witness for C10: a concrete length-3 instance with `Math.sqrt`
standing in as the identity on 1. -/
theorem C10_witness :
    weightedQuadraticFit id ([0, 1, 2] : List ℚ) ([1, 2, 4] : List ℚ)
      (calculateWeights false id (1/2) ([0, 1, 2] : List ℚ).length) =
    quadraticFit ([0, 1, 2] : List ℚ) ([1, 2, 4] : List ℚ) :=
  C10_uniform_weights_refinement id id (1/2) rfl
    ([0, 1, 2] : List ℚ) ([1, 2, 4] : List ℚ) rfl (by decide)

theorem decisionTable_buy (cfg : SignalConfig) (a pct : ℚ) (age : ℕ)
    (ha : 0 < a) (hp : cfg.MIN_MAGNITUDE < pct) :
    decisionTable cfg a pct age =
      { direction := Direction.BUY
        confidence := min (95/100) (1/2 + |pct| / 15)
        reason := "U-shaped recovery confirmed (" ++
          (toString age ++ ("min post-vertex, " ++ (formatPercentage pct ++ ")")))
        trendStrength :=
          if 8 < pct then TrendStrength.STRONG
          else if 5 < pct then TrendStrength.MODERATE
          else TrendStrength.WEAK } := by
  unfold decisionTable
  rw [if_pos ⟨ha, hp⟩]

theorem decisionTable_sell (cfg : SignalConfig) (a pct : ℚ) (age : ℕ)
    (ha : a < 0) (hp : pct < -cfg.MIN_MAGNITUDE) :
    decisionTable cfg a pct age =
      { direction := Direction.SELL
        confidence := min (95/100) (1/2 + |pct| / 20)
        reason := "∩-shaped decline confirmed (" ++
          (toString age ++ ("min post-vertex, " ++ (formatPercentage pct ++ ")")))
        trendStrength :=
          if pct < -8 then TrendStrength.STRONG
          else if pct < -5 then TrendStrength.MODERATE
          else TrendStrength.WEAK } := by
  unfold decisionTable
  rw [if_neg (fun hc => (lt_asymm ha) hc.1), if_pos ⟨ha, hp⟩]

theorem decisionTable_none (cfg : SignalConfig) (a pct : ℚ) (age : ℕ)
    (h1 : ¬ (0 < a ∧ cfg.MIN_MAGNITUDE < pct))
    (h2 : ¬ (a < 0 ∧ pct < -cfg.MIN_MAGNITUDE)) :
    decisionTable cfg a pct age =
      { direction := Direction.NONE
        confidence := 0
        reason := (if 0 < a then "U-shaped" else "∩-shaped") ++
          (" pattern present but insufficient magnitude (" ++
            (toString age ++ ("min post-vertex, " ++ (formatPercentage pct ++ ")"))))
        trendStrength := TrendStrength.WEAK } := by
  unfold decisionTable
  rw [if_neg h1, if_neg h2]

theorem classifyFit_tooRecent (cfg : SignalConfig) (a b : ℚ) (y : List ℚ) (ts : ℤ)
    (h : ageOf y (vertexIndex a b y.length) < cfg.MIN_VERTEX_AGE) :
    classifyFit cfg a b y ts =
      { direction := Direction.NONE
        confidence := 1/10
        reason := "Vertex too recent (" ++
          (toString (ageOf y (vertexIndex a b y.length)) ++
            ("min < " ++ (toString cfg.MIN_VERTEX_AGE ++ "min)")))
        vertexAge := none
        trendStrength := none
        pattern := none
        magnitude := none
        expiresAt := ts + cfg.SIGNAL_EXPIRY_MINUTES * 60 * 1000 } := by
  simp only [classifyFit]
  rw [if_pos h]

theorem classifyFit_aged (cfg : SignalConfig) (a b : ℚ) (y : List ℚ) (ts : ℤ)
    (hmin : cfg.MIN_VERTEX_AGE ≤ ageOf y (vertexIndex a b y.length))
    (hbuy : (decisionTable cfg a (pctOf y (vertexIndex a b y.length))
        (ageOf y (vertexIndex a b y.length))).direction = Direction.BUY)
    (hmax : cfg.MAX_VERTEX_AGE < ageOf y (vertexIndex a b y.length)) :
    classifyFit cfg a b y ts =
      { direction := Direction.NONE
        confidence := 0
        reason := "Pattern too aged for BUY" ++ (" (>" ++ (toString cfg.MAX_VERTEX_AGE ++ "min)"))
        vertexAge := none
        trendStrength := none
        pattern := none
        magnitude := none
        expiresAt := ts + cfg.SIGNAL_EXPIRY_MINUTES * 60 * 1000 } := by
  simp only [classifyFit]
  rw [if_neg (Nat.not_lt.mpr hmin), if_pos ⟨hbuy, hmax⟩]

theorem classifyFit_final (cfg : SignalConfig) (a b : ℚ) (y : List ℚ) (ts : ℤ)
    (hmin : cfg.MIN_VERTEX_AGE ≤ ageOf y (vertexIndex a b y.length))
    (hnot : ¬ ((decisionTable cfg a (pctOf y (vertexIndex a b y.length))
        (ageOf y (vertexIndex a b y.length))).direction = Direction.BUY ∧
        cfg.MAX_VERTEX_AGE < ageOf y (vertexIndex a b y.length))) :
    classifyFit cfg a b y ts =
      { direction := (decisionTable cfg a (pctOf y (vertexIndex a b y.length))
          (ageOf y (vertexIndex a b y.length))).direction
        confidence := round2 ((decisionTable cfg a (pctOf y (vertexIndex a b y.length))
          (ageOf y (vertexIndex a b y.length))).confidence)
        reason := (decisionTable cfg a (pctOf y (vertexIndex a b y.length))
          (ageOf y (vertexIndex a b y.length))).reason
        vertexAge := some (ageOf y (vertexIndex a b y.length))
        trendStrength := some ((decisionTable cfg a (pctOf y (vertexIndex a b y.length))
          (ageOf y (vertexIndex a b y.length))).trendStrength)
        pattern := some (if 0 < a then PatternShape.U_SHAPED else PatternShape.INVERTED_U)
        magnitude := some |pctOf y (vertexIndex a b y.length)|
        expiresAt := ts + cfg.SIGNAL_EXPIRY_MINUTES * 60 * 1000 } := by
  simp only [classifyFit]
  rw [if_neg (Nat.not_lt.mpr hmin), if_neg hnot]

/-- C4: under the default configuration, a BUY classification whose
vertex age exceeds MAX_VERTEX_AGE (120) is overridden to NONE with
confidence 0 and a reason starting "Pattern too aged for BUY"; a SELL
classification is never overridden by this cap — it remains SELL for
every vertex age that passes the minimum-age check, however large. -/
theorem C4_buy_aging_cap_asymmetry (a b : ℚ) (y : List ℚ) (ts : ℤ)
    (hmin : DEFAULT_CONFIG.MIN_VERTEX_AGE ≤ ageOf y (vertexIndex a b y.length)) :
    (0 < a → DEFAULT_CONFIG.MIN_MAGNITUDE < pctOf y (vertexIndex a b y.length) →
      DEFAULT_CONFIG.MAX_VERTEX_AGE < ageOf y (vertexIndex a b y.length) →
      (classifyFit DEFAULT_CONFIG a b y ts).direction = Direction.NONE ∧
      (classifyFit DEFAULT_CONFIG a b y ts).confidence = 0 ∧
      ∃ suf, (classifyFit DEFAULT_CONFIG a b y ts).reason = "Pattern too aged for BUY" ++ suf) ∧
    (a < 0 → pctOf y (vertexIndex a b y.length) < -DEFAULT_CONFIG.MIN_MAGNITUDE →
      (classifyFit DEFAULT_CONFIG a b y ts).direction = Direction.SELL) := by
  constructor
  · intro ha hp hmax
    have hbuy : (decisionTable DEFAULT_CONFIG a (pctOf y (vertexIndex a b y.length))
        (ageOf y (vertexIndex a b y.length))).direction = Direction.BUY := by
      rw [decisionTable_buy DEFAULT_CONFIG a _ _ ha hp]
    rw [classifyFit_aged DEFAULT_CONFIG a b y ts hmin hbuy hmax]
    exact ⟨rfl, rfl, ⟨" (>" ++ (toString DEFAULT_CONFIG.MAX_VERTEX_AGE ++ "min)"), rfl⟩⟩
  · intro ha hp
    have hsell : (decisionTable DEFAULT_CONFIG a (pctOf y (vertexIndex a b y.length))
        (ageOf y (vertexIndex a b y.length))).direction = Direction.SELL := by
      rw [decisionTable_sell DEFAULT_CONFIG a _ _ ha hp]
    have hnot : ¬ ((decisionTable DEFAULT_CONFIG a (pctOf y (vertexIndex a b y.length))
        (ageOf y (vertexIndex a b y.length))).direction = Direction.BUY ∧
        DEFAULT_CONFIG.MAX_VERTEX_AGE < ageOf y (vertexIndex a b y.length)) := by
      intro hc
      rw [hsell] at hc
      exact absurd hc.1 (by decide)
    rw [classifyFit_final DEFAULT_CONFIG a b y ts hmin hnot]
    exact hsell

/-- Witness for C4: a U-shaped ten percent rise with vertex age 259 is
overridden to NONE, while the mirror-image decline with the same vertex
age 259 (also above the cap) stays SELL. -/
theorem C4_witness :
    (classifyFit DEFAULT_CONFIG 1 (-200) yTen 0).direction = Direction.NONE ∧
    (classifyFit DEFAULT_CONFIG (-1) 200 yDown 0).direction = Direction.SELL := by
  constructor
  · exact ((C4_buy_aging_cap_asymmetry 1 (-200) yTen 0 (by with_unfolding_all decide)).1
      (by norm_num) (by with_unfolding_all decide) (by with_unfolding_all decide)).1
  · exact (C4_buy_aging_cap_asymmetry (-1) 200 yDown 0 (by with_unfolding_all decide)).2
      (by norm_num) (by with_unfolding_all decide)

/-- Counterexample for C9: a "vertex too recent" NONE record (vertex at
index 359, age 0) carries neither `pattern` nor `trendStrength`, while
the claim asserts both are present on such a record. -/
theorem C9_counterexample :
    (classifyFit DEFAULT_CONFIG 1 (-718) yFlat 0).direction = Direction.NONE ∧
    (∃ q, (classifyFit DEFAULT_CONFIG 1 (-718) yFlat 0).reason = "Vertex too recent (" ++ q) ∧
    (classifyFit DEFAULT_CONFIG 1 (-718) yFlat 0).pattern = none ∧
    (classifyFit DEFAULT_CONFIG 1 (-718) yFlat 0).trendStrength = none := by
  have h := classifyFit_tooRecent DEFAULT_CONFIG 1 (-718) yFlat 0 (by with_unfolding_all decide)
  rw [h]
  exact ⟨rfl,
    ⟨toString (ageOf yFlat (vertexIndex 1 (-718) yFlat.length)) ++
      ("min < " ++ (toString DEFAULT_CONFIG.MIN_VERTEX_AGE ++ "min)")), rfl⟩,
    rfl, rfl⟩

/-- C9 (amended): `pattern` and `trendStrength` are present exactly on
records produced by the magnitude decision table (including a
magnitude-rejected NONE); they are absent not only on the
insufficient-data NONE but also on the "vertex too recent" NONE, on the
BUY-aging-cap NONE, and on the caught-exception NONE. -/
theorem C9_metadata_presence (cfg : SignalConfig) (st : SignalState) (symbol : String)
    (prices : List ℚ) (now : ℤ) (a b : ℚ) (y : List ℚ) (ts : ℤ) :
    (prices.length < 360 →
      (generateSignal cfg st symbol prices now).1.pattern = none ∧
      (generateSignal cfg st symbol prices now).1.trendStrength = none) ∧
    (∀ (analyze : List ℚ → ℤ → Except String PatternResult) (msg : String),
      ¬ prices.length < 360 →
      analyze (prices.drop (prices.length - 360)) now = Except.error msg →
      (generateSignalWith cfg analyze st symbol prices now).1.pattern = none ∧
      (generateSignalWith cfg analyze st symbol prices now).1.trendStrength = none) ∧
    (ageOf y (vertexIndex a b y.length) < cfg.MIN_VERTEX_AGE →
      (classifyFit cfg a b y ts).pattern = none ∧
      (classifyFit cfg a b y ts).trendStrength = none) ∧
    (cfg.MIN_VERTEX_AGE ≤ ageOf y (vertexIndex a b y.length) →
      (decisionTable cfg a (pctOf y (vertexIndex a b y.length))
        (ageOf y (vertexIndex a b y.length))).direction = Direction.BUY →
      cfg.MAX_VERTEX_AGE < ageOf y (vertexIndex a b y.length) →
      (classifyFit cfg a b y ts).pattern = none ∧
      (classifyFit cfg a b y ts).trendStrength = none) ∧
    (cfg.MIN_VERTEX_AGE ≤ ageOf y (vertexIndex a b y.length) →
      ¬ ((decisionTable cfg a (pctOf y (vertexIndex a b y.length))
          (ageOf y (vertexIndex a b y.length))).direction = Direction.BUY ∧
          cfg.MAX_VERTEX_AGE < ageOf y (vertexIndex a b y.length)) →
      (classifyFit cfg a b y ts).pattern.isSome = true ∧
      (classifyFit cfg a b y ts).trendStrength.isSome = true) := by
  refine ⟨?_, ?_, ?_, ?_, ?_⟩
  · intro h
    unfold generateSignal generateSignalWith
    rw [if_pos h]
    exact ⟨rfl, rfl⟩
  · intro analyze msg hlen herr
    unfold generateSignalWith
    rw [if_neg hlen, herr]
    exact ⟨rfl, rfl⟩
  · intro h
    rw [classifyFit_tooRecent cfg a b y ts h]
    exact ⟨rfl, rfl⟩
  · intro hmin hbuy hmax
    rw [classifyFit_aged cfg a b y ts hmin hbuy hmax]
    exact ⟨rfl, rfl⟩
  · intro hmin hnot
    rw [classifyFit_final cfg a b y ts hmin hnot]
    exact ⟨rfl, rfl⟩

/-- Witness for C9 (amended): a magnitude-rejected NONE (flat window,
vertex age 59, pct 0) still carries `pattern` and `trendStrength`, and a
caught-exception NONE on a full window carries neither. -/
theorem C9_witness :
    ((classifyFit DEFAULT_CONFIG 1 (-600) yFlat 0).pattern.isSome = true ∧
     (classifyFit DEFAULT_CONFIG 1 (-600) yFlat 0).trendStrength.isSome = true) ∧
    ((generateSignalWith DEFAULT_CONFIG failingAnalyze emptyState "TOK" yFlat 0).1.pattern = none ∧
     (generateSignalWith DEFAULT_CONFIG failingAnalyze emptyState "TOK" yFlat 0).1.trendStrength = none) :=
  ⟨(C9_metadata_presence DEFAULT_CONFIG emptyState "TOK" yFlat 0 1 (-600) yFlat 0).2.2.2.2
      (by with_unfolding_all decide) (by with_unfolding_all decide),
    (C9_metadata_presence DEFAULT_CONFIG emptyState "TOK" yFlat 0 1 (-600) yFlat 0).2.1
      failingAnalyze "singular normal equations" (by decide) rfl⟩

/-- Counterexample for C6: the fitted leading coefficient 10⁻¹³ is below
the claimed epsilon 10⁻¹², yet the classifier still divides by 2a (the
vertex resolves to index 300) and classifies BUY with confidence 0.9 —
there is no "no curvature detected" degenerate case in the code. -/
theorem C6_counterexample :
    |(1:ℚ)/10^13| < 1/10^12 ∧
    (classifyFit DEFAULT_CONFIG (1/10^13) (-(600:ℚ)/10^13) ySix 0).direction = Direction.BUY ∧
    (classifyFit DEFAULT_CONFIG (1/10^13) (-(600:ℚ)/10^13) ySix 0).confidence = 9/10 := by
  refine ⟨?_, ?_, ?_⟩
  · rw [abs_of_nonneg (by norm_num : (0:ℚ) ≤ 1/10^13)]
    norm_num
  · with_unfolding_all decide
  · with_unfolding_all decide

/-- C6 (amended): the code has no degenerate-case guard.  Shape is
decided by the strict sign of `a` and the vertex is always computed as
`-b / (2a)`; for every leading coefficient with `0 < a < 1e-12` (below
the epsilon the spec postulates) the six-percent-recovery window is
still classified BUY with confidence 0.9 and pattern U_SHAPED, and no
"no curvature detected" outcome exists. -/
theorem C6_no_epsilon_guard (a : ℚ) (ha : 0 < a) (heps : a < 1/10^12) :
    (classifyFit DEFAULT_CONFIG a (-(600 * a)) ySix 0).direction = Direction.BUY ∧
    (classifyFit DEFAULT_CONFIG a (-(600 * a)) ySix 0).confidence = 9/10 ∧
    (classifyFit DEFAULT_CONFIG a (-(600 * a)) ySix 0).pattern = some PatternShape.U_SHAPED := by
  have hne : a ≠ 0 := ne_of_gt ha
  have hlen : ySix.length = 360 := by with_unfolding_all decide
  have hdiv : -(-(600 * a)) / (2 * a) = 300 := by
    field_simp
    ring
  have hv : vertexIndex a (-(600 * a)) ySix.length = 300 := by
    rw [hlen]
    unfold vertexIndex
    rw [hdiv]
    with_unfolding_all decide
  have hage : ageOf ySix (vertexIndex a (-(600 * a)) ySix.length) = 59 := by
    rw [hv]
    with_unfolding_all decide
  have hpct : pctOf ySix (vertexIndex a (-(600 * a)) ySix.length) = 6 := by
    rw [hv]
    with_unfolding_all decide
  have hmin : DEFAULT_CONFIG.MIN_VERTEX_AGE ≤ ageOf ySix (vertexIndex a (-(600 * a)) ySix.length) := by
    rw [hage]
    with_unfolding_all decide
  have hrow := decisionTable_buy DEFAULT_CONFIG a
    (pctOf ySix (vertexIndex a (-(600 * a)) ySix.length))
    (ageOf ySix (vertexIndex a (-(600 * a)) ySix.length)) ha
    (by rw [hpct]; norm_num [DEFAULT_CONFIG])
  have hnot : ¬ ((decisionTable DEFAULT_CONFIG a
      (pctOf ySix (vertexIndex a (-(600 * a)) ySix.length))
      (ageOf ySix (vertexIndex a (-(600 * a)) ySix.length))).direction = Direction.BUY ∧
      DEFAULT_CONFIG.MAX_VERTEX_AGE < ageOf ySix (vertexIndex a (-(600 * a)) ySix.length)) := by
    intro hc
    rw [hage] at hc
    exact absurd hc.2 (by with_unfolding_all decide)
  rw [classifyFit_final DEFAULT_CONFIG a (-(600 * a)) ySix 0 hmin hnot]
  refine ⟨?_, ?_, ?_⟩
  · rw [hrow]
  · show round2 ((decisionTable DEFAULT_CONFIG a
      (pctOf ySix (vertexIndex a (-(600 * a)) ySix.length))
      (ageOf ySix (vertexIndex a (-(600 * a)) ySix.length))).confidence) = 9/10
    rw [hrow]
    show round2 (min (95/100) (1/2 + |pctOf ySix (vertexIndex a (-(600 * a)) ySix.length)| / 15)) = 9/10
    rw [hpct]
    rw [show |(6:ℚ)| = 6 from by norm_num]
    rw [show (1/2 + 6/15 : ℚ) = 9/10 from by norm_num]
    rw [min_eq_right (by norm_num : (9/10:ℚ) ≤ 95/100)]
    have h := round2_intCast_div 90
    norm_num at h
    exact h
  · show some (if 0 < a then PatternShape.U_SHAPED else PatternShape.INVERTED_U) =
      some PatternShape.U_SHAPED
    rw [if_pos ha]

/-- Witness for C6 (amended): the concrete sub-epsilon coefficient 10⁻¹³. -/
theorem C6_witness :
    (classifyFit DEFAULT_CONFIG (1/10^13) (-(600 * (1/10^13 : ℚ))) ySix 0).direction = Direction.BUY ∧
    (classifyFit DEFAULT_CONFIG (1/10^13) (-(600 * (1/10^13 : ℚ))) ySix 0).confidence = 9/10 ∧
    (classifyFit DEFAULT_CONFIG (1/10^13) (-(600 * (1/10^13 : ℚ))) ySix 0).pattern = some PatternShape.U_SHAPED :=
  C6_no_epsilon_guard (1/10^13) (by norm_num) (by norm_num)

theorem classifyNamed_final (cfg : SignalConfig) (a b : ℚ) (y : List ℚ) (ts : ℤ)
    (hmin : cfg.MIN_VERTEX_AGE ≤ 360 - vertexIndexNamed a b)
    (hnot : ¬ ((decisionTableNamed a (pctOf y (vertexIndexNamed a b))
        (360 - vertexIndexNamed a b)).direction = Direction.BUY ∧
        cfg.MAX_VERTEX_AGE < 360 - vertexIndexNamed a b)) :
    classifyNamed cfg a b y ts =
      createSignal cfg
        (decisionTableNamed a (pctOf y (vertexIndexNamed a b)) (360 - vertexIndexNamed a b)).direction
        (decisionTableNamed a (pctOf y (vertexIndexNamed a b)) (360 - vertexIndexNamed a b)).confidence
        (decisionTableNamed a (pctOf y (vertexIndexNamed a b)) (360 - vertexIndexNamed a b)).reason
        ts
        (some (360 - vertexIndexNamed a b))
        (some ((decisionTableNamed a (pctOf y (vertexIndexNamed a b)) (360 - vertexIndexNamed a b)).trendStrength))
        (some (if 0 < a then PatternShape.U_SHAPED else PatternShape.INVERTED_U))
        (some |pctOf y (vertexIndexNamed a b)|) := by
  simp only [classifyNamed]
  rw [if_neg (Nat.not_lt.mpr hmin), if_neg hnot]

/-- Counterexample for C3: in the named variant, a symmetric parabola
whose vertex resolves to index 180 reports vertexAge 180 = 360 − 180,
not (N−1) − vertexIndex = 179 as the claim states. -/
theorem C3_counterexample :
    vertexIndexNamed 1 (-360) = 180 ∧
    (classifyNamed DEFAULT_CONFIG 1 (-360) yFlat 0).vertexAge = some 180 ∧
    ¬ (classifyNamed DEFAULT_CONFIG 1 (-360) yFlat 0).vertexAge =
        some (360 - 1 - vertexIndexNamed 1 (-360)) := by
  refine ⟨?_, ?_, ?_⟩
  · with_unfolding_all decide
  · with_unfolding_all decide
  · with_unfolding_all decide

/-- C3 (amended): whenever the evaluation reaches the final record, the
`part_000` variant reports vertexAge = (N−1) − vertexIndex, as the claim
states, but the named variant reports 360 − vertexIndex — one more —
although both compute the same clamped vertex index on a 360-long
window. -/
theorem C3_vertex_age_by_variant (a b : ℚ) (y : List ℚ) (ts : ℤ)
    (hy : y.length = 360)
    (hminU : DEFAULT_CONFIG.MIN_VERTEX_AGE ≤ ageOf y (vertexIndex a b y.length))
    (hnotU : ¬ ((decisionTable DEFAULT_CONFIG a (pctOf y (vertexIndex a b y.length))
        (ageOf y (vertexIndex a b y.length))).direction = Direction.BUY ∧
        DEFAULT_CONFIG.MAX_VERTEX_AGE < ageOf y (vertexIndex a b y.length)))
    (hminN : DEFAULT_CONFIG.MIN_VERTEX_AGE ≤ 360 - vertexIndexNamed a b)
    (hnotN : ¬ ((decisionTableNamed a (pctOf y (vertexIndexNamed a b))
        (360 - vertexIndexNamed a b)).direction = Direction.BUY ∧
        DEFAULT_CONFIG.MAX_VERTEX_AGE < 360 - vertexIndexNamed a b)) :
    (classifyFit DEFAULT_CONFIG a b y ts).vertexAge =
      some (y.length - 1 - vertexIndex a b y.length) ∧
    (classifyNamed DEFAULT_CONFIG a b y ts).vertexAge =
      some (360 - vertexIndexNamed a b) ∧
    vertexIndexNamed a b = vertexIndex a b y.length := by
  refine ⟨?_, ?_, ?_⟩
  · rw [classifyFit_final DEFAULT_CONFIG a b y ts hminU hnotU]
    rfl
  · rw [classifyNamed_final DEFAULT_CONFIG a b y ts hminN hnotN]
    rfl
  · unfold vertexIndexNamed vertexIndex
    rw [hy]
    norm_num

/-- Witness for C3 (amended): for the vertex-at-180 parabola over a flat
window the unnamed variant reports age 179 and the named variant 180. -/
theorem C3_witness :
    (classifyFit DEFAULT_CONFIG 1 (-360) yFlat 0).vertexAge = some 179 ∧
    (classifyNamed DEFAULT_CONFIG 1 (-360) yFlat 0).vertexAge = some 180 := by
  have h := C3_vertex_age_by_variant 1 (-360) yFlat 0
    (by with_unfolding_all decide)
    (by with_unfolding_all decide)
    (by with_unfolding_all decide)
    (by with_unfolding_all decide)
    (by with_unfolding_all decide)
  constructor
  · rw [h.1]
    with_unfolding_all decide
  · rw [h.2.1]
    with_unfolding_all decide

theorem jsSliceLast_length (l : List TrendSignal) (n : ℕ) (h1 : 1 ≤ n)
    (h2 : n ≤ l.length) : (jsSliceLast l n).length = n := by
  unfold jsSliceLast
  rw [if_neg (by omega : ¬ n = 0), List.length_drop]
  omega

/-- C2: after the stability filter appends the fresh record to the
symbol's history (truncated to 2×StabilityBufferSize), if the history
holds at least StabilityBufferSize entries and the last
StabilityBufferSize entries all share the fresh non-NONE direction, the
emitted record is stable with confidence the arithmetic mean of those
entries' confidences and the buffer-confirmed reason suffix; in every
other case the emitted record is not stable, with the fresh confidence
times 0.8 and the awaiting-confirmation suffix.  In particular three
consecutive BUY results from an empty history give two awaiting records
and then one stable record with the mean confidence, and the sequence
BUY, SELL, BUY never yields a stable record. -/
theorem C2_stability_filter :
    (∀ (cfg : SignalConfig) (hist : List TrendSignal) (s : TrendSignal) (h2 : List TrendSignal),
      1 ≤ cfg.STABILITY_BUFFER →
      h2 = (if cfg.STABILITY_BUFFER * 2 < (hist ++ [s]).length then
          (hist ++ [s]).drop ((hist ++ [s]).length - cfg.STABILITY_BUFFER * 2)
        else hist ++ [s]) →
      ((cfg.STABILITY_BUFFER ≤ h2.length ∧
          (∀ t ∈ jsSliceLast h2 cfg.STABILITY_BUFFER, t.direction = s.direction) ∧
          s.direction ≠ Direction.NONE) →
        (applyStabilityFilter cfg hist s).1.stable = some true ∧
        (applyStabilityFilter cfg hist s).1.confidence =
          ((jsSliceLast h2 cfg.STABILITY_BUFFER).map (fun t => t.confidence)).sum /
            (cfg.STABILITY_BUFFER : ℚ) ∧
        (applyStabilityFilter cfg hist s).1.reason =
          s.reason ++ (" (" ++ (toString cfg.STABILITY_BUFFER ++ "x confirmed)"))) ∧
      (¬ (cfg.STABILITY_BUFFER ≤ h2.length ∧
          (∀ t ∈ jsSliceLast h2 cfg.STABILITY_BUFFER, t.direction = s.direction) ∧
          s.direction ≠ Direction.NONE) →
        (applyStabilityFilter cfg hist s).1.stable = some false ∧
        (applyStabilityFilter cfg hist s).1.confidence = s.confidence * (8/10) ∧
        (applyStabilityFilter cfg hist s).1.reason = s.reason ++ " (awaiting confirmation)"))
    ∧
    (∀ (r1 r2 r3 : PatternResult) (ts : ℤ),
      r1.direction = Direction.BUY → r2.direction = Direction.BUY →
      r3.direction = Direction.BUY →
      round2 r1.confidence = r1.confidence → round2 r2.confidence = r2.confidence →
      round2 r3.confidence = r3.confidence →
      (applyStabilityFilterPR DEFAULT_CONFIG [] r1 ts).1.stable = some false ∧
      (applyStabilityFilterPR DEFAULT_CONFIG
        (applyStabilityFilterPR DEFAULT_CONFIG [] r1 ts).2 r2 ts).1.stable = some false ∧
      (applyStabilityFilterPR DEFAULT_CONFIG
        (applyStabilityFilterPR DEFAULT_CONFIG
          (applyStabilityFilterPR DEFAULT_CONFIG [] r1 ts).2 r2 ts).2 r3 ts).1.stable = some true ∧
      (applyStabilityFilterPR DEFAULT_CONFIG
        (applyStabilityFilterPR DEFAULT_CONFIG
          (applyStabilityFilterPR DEFAULT_CONFIG [] r1 ts).2 r2 ts).2 r3 ts).1.confidence =
        (r1.confidence + r2.confidence + r3.confidence) / 3)
    ∧
    (∀ (r1 r2 r3 : PatternResult) (ts : ℤ),
      r1.direction = Direction.BUY → r2.direction = Direction.SELL →
      r3.direction = Direction.BUY →
      (applyStabilityFilterPR DEFAULT_CONFIG [] r1 ts).1.stable = some false ∧
      (applyStabilityFilterPR DEFAULT_CONFIG
        (applyStabilityFilterPR DEFAULT_CONFIG [] r1 ts).2 r2 ts).1.stable = some false ∧
      (applyStabilityFilterPR DEFAULT_CONFIG
        (applyStabilityFilterPR DEFAULT_CONFIG
          (applyStabilityFilterPR DEFAULT_CONFIG [] r1 ts).2 r2 ts).2 r3 ts).1.stable = some false) := by
  refine ⟨?_, ?_, ?_⟩
  · intro cfg hist s h2 hbuf hh2
    subst hh2
    constructor
    · intro h
      have hlen := jsSliceLast_length _ cfg.STABILITY_BUFFER hbuf h.1
      simp only [applyStabilityFilter]
      rw [if_pos h]
      refine ⟨rfl, ?_, rfl⟩
      rw [hlen]
    · intro h
      simp only [applyStabilityFilter]
      rw [if_neg h]
      exact ⟨rfl, rfl, rfl⟩
  · intro r1 r2 r3 ts hd1 hd2 hd3 hc1 hc2 hc3
    refine ⟨?_, ?_, ?_, ?_⟩
    · simp [applyStabilityFilterPR, applyStabilityFilter, jsSliceLast, DEFAULT_CONFIG, createSignal]
    · simp [applyStabilityFilterPR, applyStabilityFilter, jsSliceLast, DEFAULT_CONFIG, createSignal]
    · simp [applyStabilityFilterPR, applyStabilityFilter, jsSliceLast, DEFAULT_CONFIG, createSignal,
        hd1, hd2, hd3]
    · simp [applyStabilityFilterPR, applyStabilityFilter, jsSliceLast, DEFAULT_CONFIG, createSignal,
        hd1, hd2, hd3, hc1, hc2, hc3]
      ring
  · intro r1 r2 r3 ts hd1 hd2 hd3
    refine ⟨?_, ?_, ?_⟩
    · simp [applyStabilityFilterPR, applyStabilityFilter, jsSliceLast, DEFAULT_CONFIG, createSignal]
    · simp [applyStabilityFilterPR, applyStabilityFilter, jsSliceLast, DEFAULT_CONFIG, createSignal]
    · simp [applyStabilityFilterPR, applyStabilityFilter, jsSliceLast, DEFAULT_CONFIG, createSignal,
        hd1, hd2, hd3]

/-- Witness for C2: three BUY results with confidences 0.9, 0.85, 0.8
give a stable third record with the mean confidence, while BUY, SELL,
BUY stays unstable throughout. -/
theorem C2_witness :
    (applyStabilityFilterPR DEFAULT_CONFIG [] prBUYa 0).1.stable = some false ∧
    (applyStabilityFilterPR DEFAULT_CONFIG
      (applyStabilityFilterPR DEFAULT_CONFIG
        (applyStabilityFilterPR DEFAULT_CONFIG [] prBUYa 0).2 prBUYb 0).2 prBUYc 0).1.stable = some true ∧
    (applyStabilityFilterPR DEFAULT_CONFIG
      (applyStabilityFilterPR DEFAULT_CONFIG
        (applyStabilityFilterPR DEFAULT_CONFIG [] prBUYa 0).2 prBUYb 0).2 prBUYc 0).1.confidence =
      (prBUYa.confidence + prBUYb.confidence + prBUYc.confidence) / 3 ∧
    (applyStabilityFilterPR DEFAULT_CONFIG
      (applyStabilityFilterPR DEFAULT_CONFIG
        (applyStabilityFilterPR DEFAULT_CONFIG [] prBUYa 0).2 prSELL 0).2 prBUYc 0).1.stable = some false := by
  have hb := C2_stability_filter.2.1 prBUYa prBUYb prBUYc 0 rfl rfl rfl
    (by with_unfolding_all decide) (by with_unfolding_all decide) (by with_unfolding_all decide)
  have hs := C2_stability_filter.2.2 prBUYa prSELL prBUYc 0 rfl rfl rfl
  exact ⟨hb.1, hb.2.2.1, hb.2.2.2, hs.2.2⟩

theorem decisionTable_confidence_bounds (cfg : SignalConfig) (a pct : ℚ) (age : ℕ) :
    0 ≤ (decisionTable cfg a pct age).confidence ∧
    (decisionTable cfg a pct age).confidence ≤ 1 := by
  by_cases h1 : 0 < a ∧ cfg.MIN_MAGNITUDE < pct
  · rw [decisionTable_buy cfg a pct age h1.1 h1.2]
    exact ⟨le_min (by norm_num) (by positivity), le_trans (min_le_left _ _) (by norm_num)⟩
  · by_cases h2 : a < 0 ∧ pct < -cfg.MIN_MAGNITUDE
    · rw [decisionTable_sell cfg a pct age h2.1 h2.2]
      exact ⟨le_min (by norm_num) (by positivity), le_trans (min_le_left _ _) (by norm_num)⟩
    · rw [decisionTable_none cfg a pct age h1 h2]
      exact ⟨le_refl 0, (by norm_num : (0:ℚ) ≤ 1)⟩

theorem classifyFit_confidence_bounds (cfg : SignalConfig) (a b : ℚ) (y : List ℚ) (ts : ℤ) :
    0 ≤ (classifyFit cfg a b y ts).confidence ∧
    (classifyFit cfg a b y ts).confidence ≤ 1 := by
  have h := decisionTable_confidence_bounds cfg a (pctOf y (vertexIndex a b y.length))
    (ageOf y (vertexIndex a b y.length))
  by_cases h1 : ageOf y (vertexIndex a b y.length) < cfg.MIN_VERTEX_AGE
  · rw [classifyFit_tooRecent cfg a b y ts h1]
    exact ⟨(by norm_num : (0:ℚ) ≤ 1/10), (by norm_num : (1/10:ℚ) ≤ 1)⟩
  · by_cases h2 : (decisionTable cfg a (pctOf y (vertexIndex a b y.length))
        (ageOf y (vertexIndex a b y.length))).direction = Direction.BUY ∧
        cfg.MAX_VERTEX_AGE < ageOf y (vertexIndex a b y.length)
    · rw [classifyFit_aged cfg a b y ts (Nat.le_of_not_lt h1) h2.1 h2.2]
      exact ⟨le_refl 0, (by norm_num : (0:ℚ) ≤ 1)⟩
    · rw [classifyFit_final cfg a b y ts (Nat.le_of_not_lt h1) h2]
      exact ⟨round2_nonneg h.1, round2_le_one h.2⟩

theorem list_avg_bounds (l : List TrendSignal)
    (h : ∀ t ∈ l, 0 ≤ t.confidence ∧ t.confidence ≤ 1) :
    0 ≤ (l.map (fun t => t.confidence)).sum / (l.length : ℚ) ∧
    (l.map (fun t => t.confidence)).sum / (l.length : ℚ) ≤ 1 := by
  rcases l with _ | ⟨a, t⟩
  · simp
  · have hpos : (0:ℚ) < (((a :: t).length : ℕ) : ℚ) := by
      exact_mod_cast Nat.succ_pos t.length
    constructor
    · apply div_nonneg _ (le_of_lt hpos)
      apply List.sum_nonneg
      intro x hx
      obtain ⟨u, hu, rfl⟩ := List.mem_map.mp hx
      exact (h u hu).1
    · rw [div_le_one hpos]
      have hle : ((a :: t).map (fun s => s.confidence)).sum ≤
          ((a :: t).map (fun _ => (1:ℚ))).sum := by
        apply List.sum_le_sum
        intro u hu
        exact (h u hu).2
      have hone : ((a :: t).map (fun _ => (1:ℚ))).sum = (((a :: t).length : ℕ) : ℚ) := by
        rw [List.map_const']
        rw [List.sum_replicate]
        simp
      rw [hone] at hle
      exact hle

theorem jsSliceLast_subset (l : List TrendSignal) (n : ℕ) : jsSliceLast l n ⊆ l := by
  unfold jsSliceLast
  split_ifs
  · exact List.Subset.refl l
  · exact List.drop_subset _ _

theorem mem_append_singleton_bounds (hist : List TrendSignal) (s : TrendSignal)
    (hh : ∀ t ∈ hist, 0 ≤ t.confidence ∧ t.confidence ≤ 1)
    (hs : 0 ≤ s.confidence ∧ s.confidence ≤ 1) :
    ∀ t ∈ hist ++ [s], 0 ≤ t.confidence ∧ t.confidence ≤ 1 := by
  intro t ht
  rcases List.mem_append.mp ht with hmem | hmem
  · exact hh t hmem
  · rw [show t = s by simpa using hmem]
    exact hs

theorem applyStabilityFilter_confidence_bounds (cfg : SignalConfig)
    (hist : List TrendSignal) (s : TrendSignal)
    (hh : ∀ t ∈ hist, 0 ≤ t.confidence ∧ t.confidence ≤ 1)
    (hs : 0 ≤ s.confidence ∧ s.confidence ≤ 1) :
    0 ≤ (applyStabilityFilter cfg hist s).1.confidence ∧
    (applyStabilityFilter cfg hist s).1.confidence ≤ 1 := by
  have hbase := mem_append_singleton_bounds hist s hh hs
  simp only [applyStabilityFilter]
  split_ifs with h1 h2 h2
  · exact list_avg_bounds _
      (fun t ht => hbase t (List.drop_subset _ _ (jsSliceLast_subset _ _ ht)))
  · exact ⟨mul_nonneg hs.1 (by norm_num), by nlinarith [hs.2, hs.1]⟩
  · exact list_avg_bounds _ (fun t ht => hbase t (jsSliceLast_subset _ _ ht))
  · exact ⟨mul_nonneg hs.1 (by norm_num), by nlinarith [hs.2, hs.1]⟩

/-- C7 (amended): every record emitted by `generateSignal` — stable,
awaiting-confirmation, insufficient-data — has confidence in [0, 1],
provided the stored history satisfies the same bound (which the filter
maintains, since it stores two-decimal-rounded base records).  The
two-decimal-rounding half of the original claim is refuted separately:
the filter's 0.8 reduction and buffer averaging leave the rounded grid. -/
theorem C7_confidence_in_unit_interval (cfg : SignalConfig) (st : SignalState)
    (symbol : String) (prices : List ℚ) (now : ℤ)
    (hinv : ∀ t ∈ st symbol, 0 ≤ t.confidence ∧ t.confidence ≤ 1) :
    0 ≤ (generateSignal cfg st symbol prices now).1.confidence ∧
    (generateSignal cfg st symbol prices now).1.confidence ≤ 1 := by
  unfold generateSignal generateSignalWith
  split_ifs with h
  · constructor <;> simp [createSignal, round2_zero]
  · show 0 ≤ (applyStabilityFilterPR cfg (st symbol)
        (analyzeQuadraticPattern cfg (prices.drop (prices.length - 360)) now) now).1.confidence ∧
      (applyStabilityFilterPR cfg (st symbol)
        (analyzeQuadraticPattern cfg (prices.drop (prices.length - 360)) now) now).1.confidence ≤ 1
    have hpr : 0 ≤ (analyzeQuadraticPattern cfg (prices.drop (prices.length - 360)) now).confidence ∧
        (analyzeQuadraticPattern cfg (prices.drop (prices.length - 360)) now).confidence ≤ 1 := by
      simp only [analyzeQuadraticPattern]
      exact classifyFit_confidence_bounds cfg _ _ _ _
    unfold applyStabilityFilterPR
    apply applyStabilityFilter_confidence_bounds cfg (st symbol) _ hinv
    show 0 ≤ round2 (analyzeQuadraticPattern cfg (prices.drop (prices.length - 360)) now).confidence ∧
      round2 (analyzeQuadraticPattern cfg (prices.drop (prices.length - 360)) now).confidence ≤ 1
    exact ⟨round2_nonneg hpr.1, round2_le_one hpr.2⟩

/-- Witness for C7 (amended): the empty history satisfies the invariant
vacuously and a short window's emitted confidence lies in [0, 1]. -/
theorem C7_witness :
    0 ≤ (generateSignal DEFAULT_CONFIG emptyState "TOK" yShort 0).1.confidence ∧
    (generateSignal DEFAULT_CONFIG emptyState "TOK" yShort 0).1.confidence ≤ 1 :=
  C7_confidence_in_unit_interval DEFAULT_CONFIG emptyState "TOK" yShort 0
    (fun t ht => absurd ht (List.not_mem_nil t))

theorem castRow_cons (a : ℤ) (t : List ℤ) : castRow (a :: t) = (a : ℚ) :: castRow t := rfl

theorem castMat_cons (r : List ℤ) (t : List (List ℤ)) :
    castMat (r :: t) = castRow r :: castMat t := rfl

theorem headD_castMat (A : List (List ℤ)) : (castMat A).headD [] = castRow (A.headD []) := by
  cases A <;> rfl

theorem length_castRow (r : List ℤ) : (castRow r).length = r.length := by
  unfold castRow
  exact List.length_map r _

theorem getD_castMat (A : List (List ℤ)) : ∀ (k : ℕ),
    (castMat A).getD k [] = castRow (A.getD k []) := by
  induction A with
  | nil => intro k; cases k <;> rfl
  | cons r t ih =>
      intro k
      cases k with
      | zero => rfl
      | succ n => exact ih n

theorem getD_castRow (r : List ℤ) : ∀ (j : ℕ),
    (castRow r).getD j 0 = ((r.getD j 0 : ℤ) : ℚ) := by
  induction r with
  | nil =>
      intro j
      cases j <;> simp [castRow]
  | cons a t ih =>
      intro j
      cases j with
      | zero => rfl
      | succ n => exact ih n

theorem castRow_map {α : Type} (l : List α) (f : α → ℤ) :
    castRow (l.map f) = l.map (fun x => ((f x : ℤ) : ℚ)) := by
  unfold castRow
  rw [List.map_map]
  rfl

theorem map_getD_castMat (i : ℕ) : ∀ (A : List (List ℤ)),
    (castMat A).map (fun row => row.getD i 0) =
      castRow (A.map (fun row => row.getD i 0))
  | [] => rfl
  | r :: t => by
      rw [castMat_cons, List.map_cons, List.map_cons, castRow_cons,
        map_getD_castMat i t, getD_castRow]

/-- Transposition commutes with the entry-wise cast. -/
theorem transpose_castMat (A : List (List ℤ)) :
    transpose (castMat A) = castMat (transposeZ A) := by
  unfold transpose transposeZ
  rw [headD_castMat, length_castRow]
  show _ = castMat ((List.range (A.headD []).length).map (fun i => A.map (fun row => row.getD i 0)))
  unfold castMat
  rw [List.map_map]
  refine List.map_eq_map_iff.mpr ?_
  intro i _
  exact map_getD_castMat i A

theorem dot_castRow_from (B : List (List ℤ)) (j : ℕ) : ∀ (row : List ℤ) (k : ℕ),
    (((castRow row).enumFrom k).map (fun p => p.2 * (((castMat B).getD p.1 []).getD j 0))).sum =
      ((((row.enumFrom k).map (fun p => p.2 * ((B.getD p.1 []).getD j 0))).sum : ℤ) : ℚ) := by
  intro row
  induction row with
  | nil => intro k; simp [castRow]
  | cons a t ih =>
      intro k
      rw [castRow_cons, List.enumFrom_cons, List.enumFrom_cons, List.map_cons, List.map_cons,
        List.sum_cons, List.sum_cons, ih (k + 1), getD_castMat, getD_castRow]
      push_cast
      ring

theorem rowExpr_cast (B : List (List ℤ)) (row : List ℤ) :
    (List.range ((castMat B).headD []).length).map
        (fun j => (((castRow row).enum).map
          (fun p => p.2 * (((castMat B).getD p.1 []).getD j 0))).sum) =
      castRow ((List.range (B.headD []).length).map
        (fun j => ((row.enum).map (fun p => p.2 * ((B.getD p.1 []).getD j 0))).sum)) := by
  rw [headD_castMat, length_castRow, castRow_map]
  refine List.map_eq_map_iff.mpr ?_
  intro j _
  exact dot_castRow_from B j row 0

theorem mulrows_cast (B : List (List ℤ)) : ∀ (A : List (List ℤ)),
    (castMat A).map (fun row =>
        (List.range ((castMat B).headD []).length).map
          (fun j => ((row.enum).map (fun p => p.2 * (((castMat B).getD p.1 []).getD j 0))).sum)) =
      castMat (A.map (fun row =>
        (List.range (B.headD []).length).map
          (fun j => ((row.enum).map (fun p => p.2 * ((B.getD p.1 []).getD j 0))).sum)))
  | [] => rfl
  | r :: t => by
      rw [castMat_cons, List.map_cons, List.map_cons, castMat_cons, mulrows_cast B t]
      exact congrArg (fun w => w :: _) (rowExpr_cast B r)

/-- Matrix multiplication commutes with the entry-wise cast. -/
theorem multiply_castMat (A B : List (List ℤ)) :
    multiply (castMat A) (castMat B) = castMat (multiplyZ A B) := by
  unfold multiply multiplyZ
  exact mulrows_cast B A

theorem dotVec_castRow_from (v : List ℤ) : ∀ (row : List ℤ) (k : ℕ),
    (((castRow row).enumFrom k).map (fun p => p.2 * (castRow v).getD p.1 0)).sum =
      ((((row.enumFrom k).map (fun p => p.2 * v.getD p.1 0)).sum : ℤ) : ℚ) := by
  intro row
  induction row with
  | nil => intro k; simp [castRow]
  | cons a t ih =>
      intro k
      rw [castRow_cons, List.enumFrom_cons, List.enumFrom_cons, List.map_cons, List.map_cons,
        List.sum_cons, List.sum_cons, ih (k + 1), getD_castRow]
      push_cast
      ring

/-- Matrix-vector multiplication commutes with the entry-wise cast. -/
theorem multiplyVec_castMat (v : List ℤ) : ∀ (A : List (List ℤ)),
    multiplyVec (castMat A) (castRow v) = castRow (multiplyVecZ A v)
  | [] => rfl
  | r :: t => by
      have ht := multiplyVec_castMat v t
      unfold multiplyVec multiplyVecZ at ht ⊢
      rw [castMat_cons, List.map_cons, List.map_cons, castRow_cons, ht]
      exact congrArg (fun w => w :: _) (dotVec_castRow_from v r 0)

/-- The ℚ design matrix of any index window is the cast of the ℤ one. -/
theorem design_cast : ∀ (l : List ℕ),
    (l.map (fun (i : ℕ) => (i : ℚ))).map (fun xi => [xi * xi, xi, 1]) =
      castMat ((l.map (fun (i : ℕ) => (i : ℤ))).map (fun z => [z * z, z, 1]))
  | [] => rfl
  | a :: t => by
      rw [List.map_cons, List.map_cons, List.map_cons, List.map_cons, castMat_cons,
        design_cast t]
      refine congrArg (fun w => w :: _) ?_
      show [(a : ℚ) * (a : ℚ), (a : ℚ), 1] = castRow [(a : ℤ) * (a : ℤ), (a : ℤ), 1]
      simp [castRow]

theorem parab_cast : ∀ (l : List ℕ),
    l.map (fun (i : ℕ) => ((i : ℚ) - 259)^2 + 625000) =
      castRow (l.map (fun (i : ℕ) => ((i : ℤ) - 259)^2 + 625000))
  | [] => rfl
  | a :: t => by
      rw [List.map_cons, List.map_cons, castRow_cons, parab_cast t]
      refine congrArg (fun w => w :: _) ?_
      push_cast
      ring

/-- `yParab` is the cast of its integer mirror. -/
theorem yParab_cast : yParab = castRow yParabZ := by
  unfold yParab yParabZ
  exact parab_cast (List.range 360)

/-- `XᵀX` of the 360-sample window, evaluated over ℤ. -/
theorem XTX_eval_int : multiplyZ (transposeZ XdZ) XdZ =
    [[1200940991988, 4175744400, 15487260],
     [4175744400, 15487260, 64620],
     [15487260, 64620, 360]] := by decide

/-- `XᵀyParab`, evaluated over ℤ. -/
theorem XTY_eval_int : multiplyVecZ (transposeZ XdZ) yParabZ =
    [9756343780848, 40875617940, 231163260] := by decide

theorem XTX_cast : castMat
    [[1200940991988, 4175744400, 15487260],
     [4175744400, 15487260, 64620],
     [15487260, 64620, 360]] = XTXq := by
  decide

theorem XTY_cast : castRow [9756343780848, 40875617940, 231163260] = XTYq := by
  decide

/-- Gaussian elimination on the concrete normal equations: the fitted
coefficients of `yParab` are exactly a = 1, b = −518, c = 692081. -/
theorem gauss_eval : solveLinearSystem XTXq XTYq = [1, -518, 692081] := by
  decide

/-- The least-squares fit of the exactly quadratic window is exact. -/
theorem quadraticFit_yParab :
    quadraticFit ((List.range 360).map (fun (i : ℕ) => (i : ℚ))) yParab =
      [1, -518, 692081] := by
  simp only [quadraticFit]
  rw [design_cast (List.range 360)]
  show solveLinearSystem
      (multiply (transpose (castMat XdZ)) (castMat XdZ))
      (multiplyVec (transpose (castMat XdZ)) yParab) = _
  rw [yParab_cast]
  show solveLinearSystem
      (multiply (transpose (castMat XdZ)) (castMat XdZ))
      (multiplyVec (transpose (castMat XdZ)) (castRow yParabZ)) = _
  rw [transpose_castMat, multiply_castMat, multiplyVec_castMat, XTX_eval_int, XTY_eval_int,
    XTX_cast, XTY_cast, gauss_eval]

/-- Counterexample for C7: the claim says every emitted confidence is
rounded to exactly two decimal places.  On the exactly quadratic window
`yParab` (vertex index 259, age 100, rise 1.6 percent) the fit returns
a = 1, b = −518 exactly, the classification confidence is 0.61, and the
first (unconfirmed) evaluation emits 0.61 × 0.8 = 0.488 — a value that
is not on the two-decimal grid. -/
theorem C7_counterexample :
    (generateSignal DEFAULT_CONFIG emptyState "TOK" yParab 0).1.confidence = 61/125 ∧
    round2 ((generateSignal DEFAULT_CONFIG emptyState "TOK" yParab 0).1.confidence) ≠
      (generateSignal DEFAULT_CONFIG emptyState "TOK" yParab 0).1.confidence := by
  have hylen : yParab.length = 360 := by decide
  have hana : analyzeQuadraticPattern DEFAULT_CONFIG yParab 0 =
      classifyFit DEFAULT_CONFIG 1 (-518) yParab 0 := by
    simp only [analyzeQuadraticPattern]
    rw [hylen, quadraticFit_yParab]
    rfl
  have hcls : (classifyFit DEFAULT_CONFIG 1 (-518) yParab 0).confidence = 61/100 := by
    decide
  have hr : round2 (61/100 : ℚ) = 61/100 := by
    have h := round2_intCast_div 61
    norm_num at h
    exact h
  have hdrop : yParab.drop (yParab.length - 360) = yParab := by
    rw [hylen]
    simp
  have hconf : (generateSignal DEFAULT_CONFIG emptyState "TOK" yParab 0).1.confidence = 61/125 := by
    unfold generateSignal generateSignalWith
    rw [if_neg (by rw [hylen]; norm_num : ¬ yParab.length < 360)]
    show (applyStabilityFilterPR DEFAULT_CONFIG (emptyState "TOK")
        (analyzeQuadraticPattern DEFAULT_CONFIG (yParab.drop (yParab.length - 360)) 0) 0).1.confidence = 61/125
    rw [hdrop, hana]
    simp [applyStabilityFilterPR, applyStabilityFilter, jsSliceLast, DEFAULT_CONFIG,
      createSignal, emptyState, hcls, hr]
    have hgoal : round2 (classifyFit DEFAULT_CONFIG 1 (-518) yParab 0).confidence * (8/10) =
        61/125 := by
      rw [hcls, hr]
      norm_num
    exact hgoal
  refine ⟨hconf, ?_⟩
  rw [hconf]
  with_unfolding_all decide
